import Mathlib

/-!
Verification of the PlannerDay agent's tool layer (plannerday-agent.py).

We shallowly embed the two agent tools, `get_user_location_by_ip` and
`get_weather`, over a small JSON value model.  HTTP traffic is modelled by an
oracle `net : WeatherRequest → HttpResult` (resp. a single `HttpResult` for the
location tool, whose request carries no parameters); Python exceptions that
propagate out of a tool are modelled with `Except`; exceptions that the source
catches are resolved inside the embedding.  JSON numbers are modelled as
rationals (`Rat`); Python booleans count as the integers 0/1 wherever the
source would treat them numerically, mirroring CPython's `bool <: int`.
-/

namespace PlannerDay

/-- JSON values, as produced by `Response.json()`. -/
inductive JVal where
  | jnull
  | jbool (b : Bool)
  | jnum (q : Rat)
  | jstr (s : String)
  | jarr (elems : List JVal)
  | jobj (fields : List (String × JVal))

/-- Result of one HTTP GET: either the request itself raised (network error),
or a response arrived with a status code and a body (`none` when the body is
not valid JSON, so that `.json()` raises). -/
inductive HttpResult where
  | netError
  | response (status : Nat) (body : Option JVal)

/-- `httpx.Response.raise_for_status` raises exactly on non-2xx statuses. -/
def is2xx (s : Nat) : Bool := 200 ≤ s && s < 300

/-- Python `dict.get(k, d)` on a parsed JSON object. -/
def jGetD (fields : List (String × JVal)) (k : String) (d : JVal) : JVal :=
  (fields.lookup k).getD d

/-- Python `obj[k]` field access that yields `none` when it would raise
(`KeyError` on a missing key, `TypeError` on a non-dict). -/
def jLookup : JVal → String → Option JVal
  | .jobj fields, k => fields.lookup k
  | _, _ => none

/-- The `Location` dict shape returned by `get_user_location_by_ip`.  Field
values are arbitrary JSON values because the source passes provider values
through without validation. -/
structure Location where
  city : JVal
  region : JVal
  country : JVal
  lat : JVal
  lng : JVal

/-- The fixed fallback location (Kyiv) from the source's `except` branch:
lat 50.4501, lng 30.5234. -/
def fallbackLocation : Location :=
  { city := .jstr "Київ"
    region := .jstr "Київська область"
    country := .jstr "Україна"
    lat := .jnum (mkRat 504501 10000)
    lng := .jnum (mkRat 305234 10000) }

/-- Embedding of `get_user_location_by_ip`.  The `try` block performs the GET
(`netError` if it raises), `raise_for_status` (raises on non-2xx), `r.json()`
(raises when the body is not JSON, i.e. `body = none`), and then the `.get`
field accesses (which raise `AttributeError` when the parsed body is not an
object).  Every raise is caught by the `except Exception` handler, which
returns the fixed fallback location; the success path builds the dict with
`dict.get` defaults. -/
def get_user_location_by_ip (r : HttpResult) : Location :=
  match r with
  | .netError => fallbackLocation
  | .response s b =>
    if is2xx s then
      match b with
      | some (.jobj fields) =>
        { city := jGetD fields "city" (.jstr "Unknown")
          region := jGetD fields "region" (.jstr "Unknown")
          country := jGetD fields "country_name" (.jstr "Unknown")
          lat := jGetD fields "latitude" (.jnum 0)
          lng := jGetD fields "longitude" (.jnum 0) }
      | _ => fallbackLocation
    else fallbackLocation

/-- A location lookup fails when the GET raises, the status is non-2xx, the
body is not valid JSON, or the parsed body is not an object (so that the
`.get` accesses raise).  These are exactly the cases in which the source's
`except` handler fires. -/
def locFailure : HttpResult → Bool
  | .netError => true
  | .response s b =>
    !is2xx s ||
      (match b with
       | some (.jobj _) => false
       | _ => true)

/-- The `WeatherReading` dict shape returned by `get_weather`. -/
structure WeatherReading where
  temperature : String
  description : String
deriving DecidableEq

/-- Failures that propagate out of `get_weather` in live mode: the GET
raising, `raise_for_status` on a non-2xx status, `r.json()` on a non-JSON
body, and `KeyError`/`TypeError`/`ValueError` from the response-shape
accesses and the float formatting. -/
inductive WError where
  | netError
  | httpStatus (status : Nat)
  | jsonError
  | shapeError
deriving DecidableEq

/-- The single GET request `get_weather` issues in live mode. -/
structure WeatherRequest where
  url : String
  apikey : String
  location : Rat × Rat
  units : String

/-- The request `get_weather` builds from its `params` dict. -/
def mkWeatherRequest (key : String) (lat lng : Rat) : WeatherRequest :=
  { url := "https://api.tomorrow.io/v4/weather/realtime"
    apikey := key
    location := (lat, lng)
    units := "metric" }

/-- The static weather-code table from the source, verbatim. -/
def code_lookup : List (Int × String) :=
  [(1000, "Clear, Sunny"),
   (1100, "Mostly Clear"),
   (1101, "Partly Cloudy"),
   (1102, "Mostly Cloudy"),
   (1001, "Cloudy"),
   (2000, "Fog"),
   (2100, "Light Fog"),
   (4000, "Drizzle"),
   (4001, "Rain"),
   (4200, "Light Rain"),
   (4201, "Heavy Rain"),
   (5000, "Snow"),
   (5001, "Flurries"),
   (5100, "Light Snow"),
   (5101, "Heavy Snow"),
   (6000, "Freezing Drizzle"),
   (6001, "Freezing Rain"),
   (6200, "Light Freezing Rain"),
   (6201, "Heavy Freezing Rain"),
   (7000, "Ice Pellets"),
   (7101, "Heavy Ice Pellets"),
   (7102, "Light Ice Pellets"),
   (8000, "Thunderstorm")]

/-- `code_lookup.get(code, 'Unknown')` at an integer key. -/
def translate (c : Int) : String :=
  (code_lookup.lookup c).getD "Unknown"

/-- Python dict lookup of a JSON value in the int-keyed table: a float hashes
and compares equal to an int exactly when it is integral, and `True`/`False`
count as 1/0; all other values miss every key. -/
def codeKey : JVal → Option Int
  | .jnum q => if q.den = 1 then some q.num else none
  | .jbool b => some (if b then 1 else 0)
  | _ => none

/-- `code_lookup.get(values['weatherCode'], 'Unknown')` on the raw JSON
value.  Python's `dict.get` raises `TypeError` on an unhashable key, so JSON
arrays and objects yield `none` (the error propagates); every hashable value
is looked up, hitting the table only when it equals an integer key, and
falls back to the literal "Unknown" otherwise. -/
def describeCode : JVal → Option String
  | .jarr _ => none
  | .jobj _ => none
  | v =>
    some (match codeKey v with
      | some c => translate c
      | none => "Unknown")

/-- Values Python's `format(x, '0.0f')` accepts as numbers (floats, ints, and
bools, the latter as 0/1). -/
def asNum : JVal → Option Rat
  | .jnum q => some q
  | .jbool b => some (if b then 1 else 0)
  | _ => none

/-- Round to the nearest integer, ties to even: the rounding CPython's
`'0.0f'` float formatting performs.  `q.num - q.floor * q.den` is the
numerator of the fractional part of `q` over the denominator `q.den`, so the
comparisons of its double against `q.den` compare the fractional part
against 1/2. -/
def roundHalfEven (q : Rat) : Int :=
  if 2 * (q.num - q.floor * (q.den : Int)) < (q.den : Int) then q.floor
  else if (q.den : Int) < 2 * (q.num - q.floor * (q.den : Int)) then q.floor + 1
  else if q.floor % 2 = 0 then q.floor else q.floor + 1

/-- Python `f'{x:0.0f}'`: round half-to-even to an integer and print it,
keeping the sign of a negative value that rounds to zero (`'-0'`). -/
def pyFormat0f (q : Rat) : String :=
  let n := roundHalfEven q
  if n = 0 ∧ q < 0 then "-0" else toString n

/-- The body-parsing tail of `get_weather`'s live path, after `r.json()`:
`data['data']['values']`, the f-string formatting of `temperatureApparent`,
and the table lookup of `weatherCode`.  Any raising access maps to
`shapeError`. -/
def parseWeatherBody (v : JVal) : Except WError WeatherReading :=
  match jLookup v "data" with
  | none => .error .shapeError
  | some d =>
    match jLookup d "values" with
    | none => .error .shapeError
    | some vals =>
      match jLookup vals "temperatureApparent" with
      | none => .error .shapeError
      | some tv =>
        match asNum tv with
        | none => .error .shapeError
        | some t =>
          match jLookup vals "weatherCode" with
          | none => .error .shapeError
          | some cv =>
            match describeCode cv with
            | none => .error .shapeError
            | some desc =>
              .ok { temperature := pyFormat0f t ++ "°C"
                    description := desc }

/-- The live branch of `get_weather`: issue the GET, `raise_for_status`,
`r.json()`, then parse the body; every failure propagates. -/
def liveWeather (req : WeatherRequest) (net : WeatherRequest → HttpResult) :
    Except WError WeatherReading :=
  match net req with
  | .netError => .error .netError
  | .response s b =>
    if is2xx s then
      match b with
      | none => .error .jsonError
      | some v => parseWeatherBody v
    else .error (.httpStatus s)

/-- Embedding of `get_weather`.  With no API key the stub reading is returned
before any network activity; otherwise one GET is issued (recorded in the
second component) and every failure propagates as an error.  The coordinate
arguments are used only to build the request. -/
def get_weather (key : Option String) (lat lng : Rat)
    (net : WeatherRequest → HttpResult) :
    Except WError WeatherReading × List WeatherRequest :=
  match key with
  | none => (.ok { temperature := "21 °C", description := "Sunny" }, [])
  | some k =>
    (liveWeather (mkWeatherRequest k lat lng) net, [mkWeatherRequest k lat lng])

/-- A live response body lacks the required shape when `data`, `data.values`,
`temperatureApparent` or `weatherCode` is missing. -/
def lacksWeatherField (v : JVal) : Bool :=
  match jLookup v "data" with
  | none => true
  | some d =>
    match jLookup d "values" with
    | none => true
    | some vals =>
      (jLookup vals "temperatureApparent").isNone ||
        (jLookup vals "weatherCode").isNone

/-- Whether a JSON value is `null`. -/
def isNullJ : JVal → Bool
  | .jnull => true
  | _ => false

/-- Whether a JSON value is a number within `[lo, hi]`. -/
def inRangeNum (v : JVal) (lo hi : Rat) : Bool :=
  match v with
  | .jnum q => lo ≤ q && q ≤ hi
  | _ => false

/-- The Location invariant as the spec states it: every field populated and
non-null, with `lat ∈ [-90, 90]` and `lng ∈ [-180, 180]`. -/
def locationClaimInvariant (l : Location) : Bool :=
  !isNullJ l.city && !isNullJ l.region && !isNullJ l.country &&
    inRangeNum l.lat (-90) 90 && inRangeNum l.lng (-180) 180

/-- Any failing lookup lands in the `except` branch and yields the fallback. -/
lemma locFailure_eq_fallback (r : HttpResult) (h : locFailure r = true) :
    get_user_location_by_ip r = fallbackLocation := by
  cases r with
  | netError => rfl
  | response s b =>
    simp only [locFailure] at h
    simp only [get_user_location_by_ip]
    cases hs : is2xx s with
    | false => simp [hs]
    | true =>
      rw [hs] at h
      simp only [Bool.not_true, Bool.false_or] at h
      simp only [hs, if_true]
      cases b with
      | none => rfl
      | some v =>
        cases v with
        | jobj fields => simp at h
        | jnull => rfl
        | jbool b => rfl
        | jnum q => rfl
        | jstr s => rfl
        | jarr elems => rfl

/-- C1: whenever the location lookup fails (the GET raises, the status is
non-2xx, or the body cannot be parsed as a JSON object), the tool does not
propagate the error: it returns exactly the fixed fallback location
(Київ / Київська область / Україна, lat 50.4501, lng 30.5234).  Totality of
the embedding witnesses that the call never raises. -/
theorem location_failure_returns_fallback (r : HttpResult)
    (h : locFailure r = true) :
    get_user_location_by_ip r = fallbackLocation :=
  locFailure_eq_fallback r h

theorem location_failure_returns_fallback_witness :
    locFailure .netError = true ∧
      get_user_location_by_ip .netError = fallbackLocation :=
  ⟨rfl, location_failure_returns_fallback .netError rfl⟩

/-- C2: with no weather-provider credential, `get_weather` returns exactly
the stub reading `{temperature: "21 °C", description: "Sunny"}` for every
pair of coordinates, and issues zero network requests. -/
theorem stub_weather_fixed_and_offline (lat lng : Rat)
    (net : WeatherRequest → HttpResult) :
    get_weather none lat lng net =
      (.ok { temperature := "21 °C", description := "Sunny" }, []) := rfl

/-- C10: in stub mode the result of `get_weather` is independent of the
coordinate arguments: any two calls, whatever their coordinates, return the
identical result (and the identical empty request list). -/
theorem stub_weather_ignores_coordinates (lat₁ lng₁ lat₂ lng₂ : Rat)
    (net : WeatherRequest → HttpResult) :
    get_weather none lat₁ lng₁ net = get_weather none lat₂ lng₂ net := rfl

/-- C3: the weather-code translation is total over the integers; it returns
the table's label on every key of the table and the literal "Unknown" on
every integer that is not a key. -/
theorem translate_total_table_correct :
    (∀ p ∈ code_lookup, translate p.1 = p.2) ∧
      (∀ c : Int, code_lookup.lookup c = none → translate c = "Unknown") := by
  constructor
  · decide
  · intro c h
    unfold translate
    rw [h]
    rfl

theorem translate_total_table_correct_witness :
    translate 1000 = "Clear, Sunny" ∧ translate 9999 = "Unknown" :=
  ⟨translate_total_table_correct.1 (1000, "Clear, Sunny") (by decide),
   translate_total_table_correct.2 9999 (by decide)⟩

/-- C8 counterexample: a well-formed 200 response carrying an out-of-range
latitude (100) is passed through unvalidated, so the returned Location
violates the claimed invariant `lat ∈ [-90, 90]`. -/
theorem location_invariant_counterexample :
    locationClaimInvariant (get_user_location_by_ip
      (.response 200 (some (.jobj [("latitude", .jnum (mkRat 100 1))])))) =
      false := by decide

/-- C8 (amended): on every failing lookup the returned Location is the fixed
fallback, which is fully populated, has no null field, and satisfies
`lat ∈ [-90, 90]` and `lng ∈ [-180, 180]`; on the success path the provider's
values are passed through unvalidated, so the invariant is not guaranteed
there. -/
theorem location_invariant_on_failure (r : HttpResult)
    (h : locFailure r = true) :
    locationClaimInvariant (get_user_location_by_ip r) = true := by
  rw [locFailure_eq_fallback r h]
  decide

theorem location_invariant_on_failure_witness :
    locFailure .netError = true ∧
      locationClaimInvariant (get_user_location_by_ip .netError) = true :=
  ⟨rfl, location_invariant_on_failure .netError rfl⟩

/-- C6: in live mode, every non-2xx response from the weather provider makes
`get_weather` raise (`raise_for_status`): the error propagates to the caller
instead of being absorbed. -/
theorem live_weather_raises_on_bad_status (k : String) (lat lng : Rat)
    (net : WeatherRequest → HttpResult) (s : Nat) (b : Option JVal)
    (hnet : net (mkWeatherRequest k lat lng) = .response s b)
    (hs : is2xx s = false) :
    (get_weather (some k) lat lng net).1 = .error (.httpStatus s) := by
  simp [get_weather, liveWeather, hnet, hs]

theorem live_weather_raises_on_bad_status_witness :
    (get_weather (some "key") 0 0 (fun _ => .response 404 none)).1 =
      .error (.httpStatus 404) :=
  live_weather_raises_on_bad_status "key" 0 0 (fun _ => .response 404 none)
    404 none rfl (by decide)

/-- C4: on the success path (2xx status, JSON-object body), `country_name`
is mapped to the `country` field; a missing `city`/`region`/`country_name`
yields the literal "Unknown", and a missing `latitude`/`longitude` yields
`0.0`. -/
theorem location_success_field_mapping (s : Nat)
    (fields : List (String × JVal)) (h2 : is2xx s = true) :
    (∀ v, fields.lookup "country_name" = some v →
      (get_user_location_by_ip (.response s (some (.jobj fields)))).country
        = v) ∧
    (fields.lookup "city" = none →
      (get_user_location_by_ip (.response s (some (.jobj fields)))).city
        = .jstr "Unknown") ∧
    (fields.lookup "region" = none →
      (get_user_location_by_ip (.response s (some (.jobj fields)))).region
        = .jstr "Unknown") ∧
    (fields.lookup "country_name" = none →
      (get_user_location_by_ip (.response s (some (.jobj fields)))).country
        = .jstr "Unknown") ∧
    (fields.lookup "latitude" = none →
      (get_user_location_by_ip (.response s (some (.jobj fields)))).lat
        = .jnum 0) ∧
    (fields.lookup "longitude" = none →
      (get_user_location_by_ip (.response s (some (.jobj fields)))).lng
        = .jnum 0) := by
  refine ⟨?_, ?_, ?_, ?_, ?_, ?_⟩
  · intro v h
    simp [get_user_location_by_ip, h2, jGetD, h]
  all_goals intro h
  all_goals simp [get_user_location_by_ip, h2, jGetD, h]

theorem location_success_field_mapping_witness :
    (get_user_location_by_ip (.response 200 (some (.jobj
        [("country_name", .jstr "Україна")])))).country = .jstr "Україна" ∧
    (get_user_location_by_ip (.response 200 (some (.jobj
        [("country_name", .jstr "Україна")])))).city = .jstr "Unknown" ∧
    (get_user_location_by_ip (.response 200 (some (.jobj
        [("country_name", .jstr "Україна")])))).lat = .jnum 0 := by
  have h := location_success_field_mapping 200
      [("country_name", JVal.jstr "Україна")] rfl
  exact ⟨h.1 _ rfl, h.2.1 rfl, h.2.2.2.2.1 rfl⟩

/-- The rational floor is a lower bound. -/
lemma ratFloor_le (q : Rat) : (q.floor : Rat) ≤ q :=
  Rat.le_floor.mp (le_refl _)

/-- The rational floor plus one is a strict upper bound. -/
lemma lt_ratFloor_add_one (q : Rat) : q < (q.floor : Rat) + 1 := by
  by_contra hc
  push_neg at hc
  have h2 : ((q.floor + 1 : Int) : Rat) ≤ q := by push_cast; linarith
  have h3 := Rat.le_floor.mpr h2
  omega

/-- The numerator of the fractional part, as used by `roundHalfEven`,
relates to the fractional part scaled by the denominator. -/
lemma fracNum_eq (q : Rat) :
    ((q.num - q.floor * (q.den : Int) : Int) : Rat) =
      (q - (q.floor : Rat)) * (q.den : Rat) := by
  have hden : ((q.den : Rat)) ≠ 0 := by
    exact_mod_cast q.den_nz
  have hmul : (q.num : Rat) = q * (q.den : Rat) :=
    (div_eq_iff hden).mp (Rat.num_div_den q)
  push_cast
  rw [hmul]
  ring

/-- `roundHalfEven` rounds to the nearest integer: the distance to its
output never exceeds one half. -/
lemma roundHalfEven_nearest (q : Rat) :
    |((roundHalfEven q : Int) : Rat) - q| ≤ 1 / 2 := by
  have hfl : (q.floor : Rat) ≤ q := ratFloor_le q
  have hfu : q < (q.floor : Rat) + 1 := lt_ratFloor_add_one q
  have hden : (0 : Rat) < (q.den : Rat) := by
    exact_mod_cast Nat.pos_of_ne_zero q.den_nz
  unfold roundHalfEven
  split_ifs with h1 h2 h3
  · have hc1 : (2 : Rat) * ((q - (q.floor : Rat)) * q.den) < q.den := by
      rw [← fracNum_eq]
      exact_mod_cast h1
    have hlt : 2 * (q - (q.floor : Rat)) < 1 :=
      (mul_lt_mul_right hden).mp (by linarith)
    rw [abs_le]
    constructor <;> linarith
  · have hc2 : ((q.den : Rat)) < 2 * ((q - (q.floor : Rat)) * q.den) := by
      rw [← fracNum_eq]
      exact_mod_cast h2
    have hgt : 1 < 2 * (q - (q.floor : Rat)) :=
      (mul_lt_mul_right hden).mp (by linarith)
    rw [abs_le]
    constructor <;> push_cast <;> linarith
  · have hc3 : ((q.den : Rat)) = 2 * ((q - (q.floor : Rat)) * q.den) := by
      rw [← fracNum_eq]
      exact_mod_cast le_antisymm (not_lt.mp h1) (not_lt.mp h2)
    have heq : 2 * (q - (q.floor : Rat)) = 1 :=
      mul_right_cancel₀ (ne_of_gt hden) (by linarith)
    rw [abs_le]
    constructor <;> linarith
  · have hc3 : ((q.den : Rat)) = 2 * ((q - (q.floor : Rat)) * q.den) := by
      rw [← fracNum_eq]
      exact_mod_cast le_antisymm (not_lt.mp h1) (not_lt.mp h2)
    have heq : 2 * (q - (q.floor : Rat)) = 1 :=
      mul_right_cancel₀ (ne_of_gt hden) (by linarith)
    rw [abs_le]
    constructor <;> push_cast <;> linarith

/-- An integer-valued `weatherCode` is hashable and integral, so the dict
lookup returns `translate c`. -/
lemma describeCode_intCast (c : Int) :
    describeCode (.jnum (c : Rat)) = some (translate c) := by
  simp [describeCode, codeKey, Rat.den_intCast, Rat.num_intCast]

/-- A well-shaped 2xx live response with a numeric apparent temperature and
an integer weather code produces the formatted reading. -/
lemma live_weather_ok_aux (k : String) (lat lng : Rat)
    (net : WeatherRequest → HttpResult) (s : Nat) (v d vals : JVal)
    (t : Rat) (c : Int)
    (hnet : net (mkWeatherRequest k lat lng) = .response s (some v))
    (hs : is2xx s = true)
    (hd : jLookup v "data" = some d)
    (hvals : jLookup d "values" = some vals)
    (ht : jLookup vals "temperatureApparent" = some (.jnum t))
    (hc : jLookup vals "weatherCode" = some (.jnum (c : Rat))) :
    (get_weather (some k) lat lng net).1 =
      .ok { temperature := pyFormat0f t ++ "°C"
            description := translate c } := by
  simp [get_weather, liveWeather, hnet, hs, parseWeatherBody, hd, hvals,
    ht, hc, asNum, describeCode_intCast]

/-- C5: in live mode, a response carrying `data.values.temperatureApparent`
as a number and `weatherCode` as an integer (the provider's wire types)
makes `get_weather` return the apparent temperature rounded to zero decimal
places with the `°C` suffix (no space) and the translated code; the
rounding is to the nearest integer degree. -/
theorem live_weather_formats_temperature (k : String) (lat lng : Rat)
    (net : WeatherRequest → HttpResult) (s : Nat) (v d vals : JVal)
    (t : Rat) (c : Int)
    (hnet : net (mkWeatherRequest k lat lng) = .response s (some v))
    (hs : is2xx s = true)
    (hd : jLookup v "data" = some d)
    (hvals : jLookup d "values" = some vals)
    (ht : jLookup vals "temperatureApparent" = some (.jnum t))
    (hc : jLookup vals "weatherCode" = some (.jnum (c : Rat))) :
    (get_weather (some k) lat lng net).1 =
      .ok { temperature := pyFormat0f t ++ "°C"
            description := translate c } ∧
    |((roundHalfEven t : Int) : Rat) - t| ≤ 1 / 2 :=
  ⟨live_weather_ok_aux k lat lng net s v d vals t c hnet hs hd hvals ht hc,
   roundHalfEven_nearest t⟩

/-- A live response body with `temperatureApparent = 20.6` and
`weatherCode = 1000`, used to instantiate C5. -/
def sampleWeatherBody : JVal :=
  .jobj [("data", .jobj [("values", .jobj
    [("temperatureApparent", .jnum (mkRat 103 5)),
     ("weatherCode", .jnum ((1000 : Int) : Rat))])])]

theorem live_weather_formats_temperature_witness :
    (get_weather (some "key") 0 0
        (fun _ => .response 200 (some sampleWeatherBody))).1 =
      .ok { temperature := "21°C", description := "Clear, Sunny" } ∧
    |((roundHalfEven (mkRat 103 5) : Int) : Rat) - mkRat 103 5| ≤ 1 / 2 := by
  have h := live_weather_formats_temperature "key" 0 0
      (fun _ => .response 200 (some sampleWeatherBody)) 200 sampleWeatherBody
      (.jobj [("values", .jobj
        [("temperatureApparent", .jnum (mkRat 103 5)),
         ("weatherCode", .jnum ((1000 : Int) : Rat))])])
      (.jobj [("temperatureApparent", .jnum (mkRat 103 5)),
        ("weatherCode", .jnum ((1000 : Int) : Rat))])
      (mkRat 103 5) 1000 rfl rfl rfl rfl rfl rfl
  refine ⟨h.1.trans ?_, h.2⟩
  exact congrArg Except.ok (by decide)

/-- A body lacking any of the required fields parses to a shape error. -/
lemma parse_shape_error (v : JVal) (hv : lacksWeatherField v = true) :
    parseWeatherBody v = .error .shapeError := by
  cases hd : jLookup v "data" with
  | none => simp [parseWeatherBody, hd]
  | some d =>
    cases hvals : jLookup d "values" with
    | none => simp [parseWeatherBody, hd, hvals]
    | some vals =>
      cases ht : jLookup vals "temperatureApparent" with
      | none => simp [parseWeatherBody, hd, hvals, ht]
      | some tv =>
        have hv2 : (jLookup vals "weatherCode").isNone = true := by
          simp only [lacksWeatherField, hd, hvals, ht, Option.isNone_some,
            Bool.false_or] at hv
          exact hv
        cases hc : jLookup vals "weatherCode" with
        | some cv => rw [hc] at hv2; simp at hv2
        | none =>
          cases han : asNum tv with
          | none => simp [parseWeatherBody, hd, hvals, ht, han]
          | some t => simp [parseWeatherBody, hd, hvals, ht, han, hc]

/-- C7: in live mode, a 2xx response whose body lacks `data`, `data.values`,
`temperatureApparent` or `weatherCode` is not handled specially: the raised
`KeyError` propagates out of the tool as an error. -/
theorem live_weather_malformed_shape_propagates (k : String) (lat lng : Rat)
    (net : WeatherRequest → HttpResult) (s : Nat) (v : JVal)
    (hnet : net (mkWeatherRequest k lat lng) = .response s (some v))
    (hs : is2xx s = true)
    (hv : lacksWeatherField v = true) :
    (get_weather (some k) lat lng net).1 = .error .shapeError := by
  have hp := parse_shape_error v hv
  simp [get_weather, liveWeather, hnet, hs, hp]

theorem live_weather_malformed_shape_propagates_witness :
    (get_weather (some "key") 0 0
        (fun _ => .response 200 (some (.jobj [])))).1 =
      .error .shapeError :=
  live_weather_malformed_shape_propagates "key" 0 0
    (fun _ => .response 200 (some (.jobj []))) 200 (.jobj []) rfl rfl rfl

/-- Values found by lookup in an association list all of whose values
satisfy a property satisfy that property. -/
lemma lookup_val_ne_empty {l : List (Int × String)}
    (hl : ∀ p ∈ l, p.2 ≠ "") :
    ∀ c s, l.lookup c = some s → s ≠ "" := by
  induction l with
  | nil => intro c s h; simp [List.lookup] at h
  | cons p tl ih =>
    intro c s h
    obtain ⟨k, v⟩ := p
    simp only [List.lookup] at h
    cases hck : c == k with
    | true =>
      rw [hck] at h
      simp only [Option.some.injEq] at h
      subst h
      exact hl (k, v) (List.mem_cons_self _ _)
    | false =>
      rw [hck] at h
      exact ih (fun q hq => hl q (List.mem_cons_of_mem _ hq)) c s h

/-- `translate` never returns the empty string. -/
lemma translate_ne_empty (c : Int) : translate c ≠ "" := by
  unfold translate
  cases h : code_lookup.lookup c with
  | none => simp
  | some s =>
    simp only [Option.getD_some]
    exact lookup_val_ne_empty (by decide) c s h

/-- When `describeCode` returns a description, it is never empty. -/
lemma describeCode_some_ne_empty {v : JVal} {s : String}
    (h : describeCode v = some s) : s ≠ "" := by
  cases v with
  | jarr elems => simp [describeCode] at h
  | jobj fields => simp [describeCode] at h
  | jnull =>
    simp only [describeCode, codeKey, Option.some.injEq] at h
    subst h
    decide
  | jstr str =>
    simp only [describeCode, codeKey, Option.some.injEq] at h
    subst h
    decide
  | jbool b =>
    simp only [describeCode, codeKey, Option.some.injEq] at h
    subst h
    exact translate_ne_empty _
  | jnum q =>
    simp only [describeCode, Option.some.injEq] at h
    subst h
    cases hck : codeKey (.jnum q) with
    | none => simp [hck]
    | some c =>
      simp only [hck]
      exact translate_ne_empty c

/-- A successfully parsed weather body has a non-empty description. -/
lemma parse_ok_description_ne_empty (v : JVal) (w : WeatherReading)
    (h : parseWeatherBody v = .ok w) : w.description ≠ "" := by
  cases hd : jLookup v "data" with
  | none => simp [parseWeatherBody, hd] at h
  | some d =>
    cases hvals : jLookup d "values" with
    | none => simp [parseWeatherBody, hd, hvals] at h
    | some vals =>
      cases ht : jLookup vals "temperatureApparent" with
      | none => simp [parseWeatherBody, hd, hvals, ht] at h
      | some tv =>
        cases han : asNum tv with
        | none => simp [parseWeatherBody, hd, hvals, ht, han] at h
        | some t =>
          cases hc : jLookup vals "weatherCode" with
          | none => simp [parseWeatherBody, hd, hvals, ht, han, hc] at h
          | some cv =>
            cases hdc : describeCode cv with
            | none =>
              simp [parseWeatherBody, hd, hvals, ht, han, hc, hdc] at h
            | some desc =>
              simp only [parseWeatherBody, hd, hvals, ht, han, hc, hdc,
                Except.ok.injEq] at h
              subst h
              exact describeCode_some_ne_empty hdc

/-- C9: every reading `get_weather` returns, in stub or live mode, has a
non-empty description; and in live mode an unmapped integer weather code
does not make the tool fail: the reading comes back `.ok` with the literal
"Unknown" as its description. -/
theorem weather_description_nonempty :
    (∀ (key : Option String) (lat lng : Rat)
      (net : WeatherRequest → HttpResult) (w : WeatherReading),
      (get_weather key lat lng net).1 = .ok w → w.description ≠ "") ∧
    (∀ (k : String) (lat lng : Rat) (net : WeatherRequest → HttpResult)
      (s : Nat) (v d vals : JVal) (t : Rat) (c : Int),
      net (mkWeatherRequest k lat lng) = .response s (some v) →
      is2xx s = true →
      jLookup v "data" = some d →
      jLookup d "values" = some vals →
      jLookup vals "temperatureApparent" = some (.jnum t) →
      jLookup vals "weatherCode" = some (.jnum (c : Rat)) →
      code_lookup.lookup c = none →
      (get_weather (some k) lat lng net).1 =
        .ok { temperature := pyFormat0f t ++ "°C"
              description := "Unknown" }) := by
  constructor
  · intro key lat lng net w h
    cases key with
    | none =>
      have h2 : (Except.ok { temperature := "21 °C", description := "Sunny" } :
          Except WError WeatherReading) = .ok w := h
      have hw := Except.ok.inj h2
      rw [← hw]
      decide
    | some k =>
      have h2 : liveWeather (mkWeatherRequest k lat lng) net = .ok w := h
      cases hn : net (mkWeatherRequest k lat lng) with
      | netError => simp [liveWeather, hn] at h2
      | response s b =>
        simp only [liveWeather, hn] at h2
        cases hs : is2xx s with
        | false => rw [hs] at h2; simp at h2
        | true =>
          rw [hs] at h2
          simp only [if_true] at h2
          cases b with
          | none => simp at h2
          | some v => exact parse_ok_description_ne_empty v w h2
  · intro k lat lng net s v d vals t c hnet hs hd hvals ht hc hun
    have hok := live_weather_ok_aux k lat lng net s v d vals t c hnet hs hd
      hvals ht hc
    have htr : translate c = "Unknown" := by
      unfold translate
      rw [hun]
      rfl
    rw [hok, htr]

/-- A live response body with `temperatureApparent = 20.6` and the unmapped
`weatherCode = 9999`, used to instantiate C9. -/
def sampleUnmappedBody : JVal :=
  .jobj [("data", .jobj [("values", .jobj
    [("temperatureApparent", .jnum (mkRat 103 5)),
     ("weatherCode", .jnum ((9999 : Int) : Rat))])])]

theorem weather_description_nonempty_witness :
    ({ temperature := "21 °C", description := "Sunny" } :
      WeatherReading).description ≠ "" ∧
    (get_weather (some "key") 0 0
        (fun _ => .response 200 (some sampleUnmappedBody))).1 =
      .ok { temperature := "21°C", description := "Unknown" } := by
  constructor
  · exact weather_description_nonempty.1 none 0 0 (fun _ => .netError)
      { temperature := "21 °C", description := "Sunny" } rfl
  · have h := weather_description_nonempty.2 "key" 0 0
      (fun _ => .response 200 (some sampleUnmappedBody)) 200
      sampleUnmappedBody
      (.jobj [("values", .jobj
        [("temperatureApparent", .jnum (mkRat 103 5)),
         ("weatherCode", .jnum ((9999 : Int) : Rat))])])
      (.jobj [("temperatureApparent", .jnum (mkRat 103 5)),
        ("weatherCode", .jnum ((9999 : Int) : Rat))])
      (mkRat 103 5) 9999 rfl rfl rfl rfl rfl rfl (by decide)
    exact h.trans (congrArg Except.ok (by decide))

end PlannerDay
